import Mathlib

/-!
A shallow embedding of the two scripts of the openclaw-telegram-userapi
repository (`scripts/telegram_api.py` and `scripts/web_login.py`), together
with theorems about the CLI argument parsing, the .env loading, the fuzzy
group lookup, the chat-id sign convention, the login status flag, the code
mailbox and the POST handler of the login server.

Python strings are modelled as lists of characters, Python dictionaries as
association lists in insertion order, fallible library calls as values of
`Except` (the `error` branch carries the textual message of the raised
exception), and the stateful parts of the login server as explicit event
traces or fuel-indexed step functions.
-/

namespace TG

/-- Python strings are modelled as lists of characters. -/
abbrev Str := List Char

/-- Turn a Lean string literal into the model type. -/
def S (s : String) : Str := s.toList

/-- Python `str.strip()`: whitespace removed at both ends. -/
def pstrip (s : Str) : Str :=
  ((s.dropWhile Char.isWhitespace).reverse.dropWhile Char.isWhitespace).reverse

/-- Python `str.lower()` restricted to the ASCII range. -/
def plower (s : Str) : Str := s.map Char.toLower

/-- Whether the first list is a prefix of the second. -/
def isPrefixL : Str → Str → Bool
  | [], _ => true
  | _ :: _, [] => false
  | a :: as, b :: bs => (a = b) && isPrefixL as bs

/-- Python substring containment `needle in hay`. -/
def containsSub (n : Str) : Str → Bool
  | [] => n.isEmpty
  | c :: t => isPrefixL n (c :: t) || containsSub n t

/-- Python `line.split(sep, 1)` for a one-character separator: the parts
    before and after the first occurrence, `none` when the separator is
    absent (which in the scripts is always guarded by an `in` test). -/
def splitFirst (sep : Char) : Str → Option (Str × Str)
  | [] => none
  | c :: t =>
    if c = sep then some ([], t)
    else
      match splitFirst sep t with
      | some kv => some (c :: kv.1, kv.2)
      | none => none

/-- Python `s.startswith(p)`. -/
def pstartswith (p s : Str) : Bool := isPrefixL p s

/-- Python `s.lstrip("@")`: leading at-signs removed. -/
def lstripAt (s : Str) : Str := s.dropWhile (fun c => c = '@')

/-- `key.replace("-", "_")` from the flag parser of `main`. -/
def dashToUnderscore (s : Str) : Str := s.map (fun c => if c = '-' then '_' else c)

/-! ## Environment loading (`load_env`, identical in both scripts) -/

/-- The process environment `os.environ`, as an association list in
    insertion order; lookup returns the first binding of a key. -/
abbrev Env := List (Str × Str)

/-- Lookup of a key in the environment (`key in os.environ` and reads). -/
def elookup (k : Str) : Env → Option Str
  | [] => none
  | kv :: t => if kv.1 = k then some kv.2 else elookup k t

/-- One line of the .env scan (telegram_api.py lines 55-60, web_login.py
    lines 54-59): strip the line, require a "=" and no leading "#", split at
    the first "=", and bind the stripped key to the stripped value unless
    the key is already present in the environment. -/
def applyLine (env : Env) (raw : Str) : Env :=
  let line := pstrip raw
  match splitFirst '=' line with
  | none => env
  | some kv =>
    if pstartswith (S "#") line then env
    else if (elookup (pstrip kv.1) env).isSome then env
    else env ++ [(pstrip kv.1, pstrip kv.2)]

/-- Processing of the lines of one existing .env file (the inner for-loop). -/
def loadEnvFile (env : Env) (lines : List Str) : Env := lines.foldl applyLine env

/-- `load_env`: of the two candidate locations (the session-directory .env
    and the base-directory .env) the first one that exists is processed and
    the loop `break`s; a location that does not exist is `none`. -/
def load_env (env : Env) (sessionEnvFile baseEnvFile : Option (List Str)) : Env :=
  match sessionEnvFile with
  | some ls => loadEnvFile env ls
  | none =>
    match baseEnvFile with
    | some ls => loadEnvFile env ls
    | none => env

/-- Specification-side reading of "the first matching line per key wins":
    the stripped value of the first stripped line that has a "=", does not
    start with "#", and whose stripped key equals `k`. -/
def firstDef (k : Str) : List Str → Option Str
  | [] => none
  | raw :: rest =>
    let line := pstrip raw
    match splitFirst '=' line with
    | none => firstDef k rest
    | some kv =>
      if pstartswith (S "#") line then firstDef k rest
      else if pstrip kv.1 = k then some (pstrip kv.2)
      else firstDef k rest

/-- Left-biased choice on optional values. -/
def overlay (a b : Option Str) : Option Str :=
  match a with
  | some v => some v
  | none => b

/-! ## JSON values printed by `output` -/

/-- The JSON documents the router prints (`output`, telegram_api.py
    line 106). -/
inductive J where
  | jnull
  | jbool (b : Bool)
  | jint (n : Int)
  | jstr (s : Str)
  | jarr (xs : List J)
  | jobj (fields : List (Str × J))

/-- Lookup of a field of a JSON object. -/
def jlookup (k : Str) : List (Str × J) → Option J
  | [] => none
  | kv :: t => if kv.1 = k then some kv.2 else jlookup k t

/-- The value of a named field of a JSON object, `none` on other values. -/
def J.getField : J → Str → Option J
  | .jobj fs, k => jlookup k fs
  | _, _ => none

/-! ## The CLI router (`main` of telegram_api.py) -/

/-- A Python value appearing in the kwargs built by `main`: flag and
    positional values are strings, the defaults of the command table are
    `None` and the integer 20. -/
inductive PyVal where
  | vnone
  | vint (n : Int)
  | vstr (s : Str)
deriving DecidableEq

/-- A Python dict in insertion order: an update of an existing key keeps
    its position, a new key is appended. -/
abbrev Dict := List (Str × PyVal)

/-- Dict lookup. -/
def dget (d : Dict) (k : Str) : Option PyVal :=
  match d with
  | [] => none
  | kv :: t => if kv.1 = k then some kv.2 else dget t k

/-- Dict update `d[k] = v`. -/
def dset (d : Dict) (k : Str) (v : PyVal) : Dict :=
  match d with
  | [] => [(k, v)]
  | kv :: t => if kv.1 = k then (k, v) :: t else kv :: dset t k v

/-- One entry of the COMMANDS table: the ordered required argument names
    and the ordered optional-name-to-default mapping. -/
structure CmdEntry where
  required : List Str
  defaults : Dict

/-- The argument-scanning loop of `main` (telegram_api.py lines 425-439):
    a token `--key=value` fills the flags dict, a token `--key` followed by
    another token consumes both, every other token (including a trailing
    `--key` with nothing after it) is positional. -/
def parseLoop : List Str → List Str → Dict → List Str × Dict
  | [], pos, flags => (pos, flags)
  | [a], pos, flags =>
    if pstartswith (S "--") a && containsSub (S "=") a then
      match splitFirst '=' (a.drop 2) with
      | some kv => (pos, dset flags (dashToUnderscore kv.1) (.vstr kv.2))
      | none => (pos ++ [a], flags)
    else (pos ++ [a], flags)
  | a :: b :: rest, pos, flags =>
    if pstartswith (S "--") a && containsSub (S "=") a then
      match splitFirst '=' (a.drop 2) with
      | some kv => parseLoop (b :: rest) pos (dset flags (dashToUnderscore kv.1) (.vstr kv.2))
      | none => parseLoop (b :: rest) (pos ++ [a]) flags
    else if pstartswith (S "--") a then
      parseLoop rest pos (dset flags (dashToUnderscore (a.drop 2)) (.vstr b))
    else
      parseLoop (b :: rest) (pos ++ [a]) flags

/-- Pair names with values position by position (the two enumerate loops of
    `main`, whose index guards amount to truncation at the shorter list). -/
def fillZip (kw : Dict) (names : List Str) (vals : List Str) : Dict :=
  (names.zip vals).foldl (fun d nv => dset d nv.1 (.vstr nv.2)) kw

/-- The flag-override loop of `main` (lines 458-460): every entry of the
    flags dict whose key is a default name or a required name is written
    into kwargs. The flags dict was seeded with `dict(defaults)`. -/
def applyFlags (entry : CmdEntry) (flags : Dict) (kw : Dict) : Dict :=
  flags.foldl
    (fun d kv =>
      if (dget entry.defaults kv.1).isSome || entry.required.contains kv.1 then dset d kv.1 kv.2
      else d)
    kw

/-- Python `", ".join(missing)`. -/
def joinComma : List Str → Str
  | [] => []
  | [s] => s
  | s :: rest => s ++ S ", " ++ joinComma rest

/-- The error document printed for missing required arguments (line 444). -/
def missingErrJson (missing : List Str) : J :=
  .jobj [(S "ok", .jbool false),
         (S "error", .jstr (S "Missing required arguments: " ++ joinComma missing))]

/-- Decimal digit accumulation for `int(...)`. -/
def pyDigitsAux : Str → Nat → Option Nat
  | [], acc => some acc
  | c :: t, acc =>
    if c.isDigit then pyDigitsAux t (acc * 10 + (c.toNat - 48))
    else none

/-- A nonempty all-digit string to its numeric value. -/
def pyDigits : Str → Option Nat
  | [] => none
  | s => pyDigitsAux s 0

/-- Python `int(s)` on a string (plain decimal with optional sign and
    surrounding whitespace); `none` when `int` would raise ValueError. -/
def pyIntOfStr (s : Str) : Option Int :=
  match pstrip s with
  | '-' :: rest => (pyDigits rest).map (fun n => -(n : Int))
  | '+' :: rest => (pyDigits rest).map (fun n => (n : Int))
  | t => (pyDigits t).map (fun n => (n : Int))

/-- Python `int(v)` on a kwargs value; `None` raises TypeError. -/
def pyIntOf : PyVal → Option Int
  | .vnone => none
  | .vint n => some n
  | .vstr s => pyIntOfStr s

/-- The type-coercion step of `main` (lines 463-464): a `limit` entry of the
    kwargs is coerced with `int`; `none` when that raises. -/
def coerceLimit (kw : Dict) : Option Dict :=
  match dget kw (S "limit") with
  | none => some kw
  | some v =>
    match pyIntOf v with
    | some n => some (dset kw (S "limit") (.vint n))
    | none => none

/-- The outcome of dispatching one command line: the kwargs handed to the
    operation coroutine, or the missing-arguments error (printed, then
    `sys.exit(1)`, so the operation is never invoked), or an exception
    raised inside `main` itself. -/
inductive RouteResult where
  | invoke (kwargs : Dict)
  | errMissing (missing : List Str) (err : J)
  | excRoute (msg : Str)

/-- Whether the operation coroutine gets invoked. -/
def RouteResult.isInvoke : RouteResult → Bool
  | .invoke _ => true
  | _ => false

/-- The argument handling of `main` for one COMMANDS entry (telegram_api.py
    lines 424-466): parse the tokens, check the required count, fill the
    required names from the positionals, the optional names from the
    remaining positionals, apply the flag overrides, coerce `limit`. -/
def route (entry : CmdEntry) (args : List Str) : RouteResult :=
  let pf := parseLoop args [] entry.defaults
  if pf.1.length < entry.required.length then
    .errMissing (entry.required.drop pf.1.length)
      (missingErrJson (entry.required.drop pf.1.length))
  else
    let kw1 := fillZip [] entry.required pf.1
    let kw2 := fillZip kw1 (entry.defaults.map (fun kv => kv.1)) (pf.1.drop entry.required.length)
    let kw3 := applyFlags entry pf.2 kw2
    match coerceLimit kw3 with
    | some kw => .invoke kw
    | none => .excRoute (S "invalid literal for int")

/-- The COMMANDS table (telegram_api.py lines 372-384), entry by entry. -/
def checkSessionEntry : CmdEntry := ⟨[], []⟩

/-- COMMANDS entry of get-me. -/
def getMeEntry : CmdEntry := ⟨[], []⟩

/-- COMMANDS entry of create-group. -/
def createGroupEntry : CmdEntry := ⟨[S "title"], [(S "bot_username", .vnone)]⟩

/-- COMMANDS entry of list-groups. -/
def listGroupsEntry : CmdEntry := ⟨[], [(S "limit", .vint 20)]⟩

/-- COMMANDS entry of lookup-group. -/
def lookupGroupEntry : CmdEntry := ⟨[S "name"], []⟩

/-- COMMANDS entry of send-message. -/
def sendMessageEntry : CmdEntry := ⟨[S "chat_id", S "text"], []⟩

/-- COMMANDS entry of add-member. -/
def addMemberEntry : CmdEntry := ⟨[S "chat_id", S "username"], []⟩

/-- COMMANDS entry of get-members. -/
def getMembersEntry : CmdEntry := ⟨[S "chat_id"], []⟩

/-- COMMANDS entry of set-group-photo. -/
def setGroupPhotoEntry : CmdEntry := ⟨[S "chat_id", S "photo_path"], []⟩

/-- COMMANDS entry of leave-group. -/
def leaveGroupEntry : CmdEntry := ⟨[S "chat_id"], []⟩

/-- COMMANDS entry of get-chat-info. -/
def getChatInfoEntry : CmdEntry := ⟨[S "chat_id"], []⟩

/-- The full COMMANDS table keyed by command name. -/
def COMMANDS : List (Str × CmdEntry) :=
  [(S "check-session", checkSessionEntry),
   (S "get-me", getMeEntry),
   (S "create-group", createGroupEntry),
   (S "list-groups", listGroupsEntry),
   (S "lookup-group", lookupGroupEntry),
   (S "send-message", sendMessageEntry),
   (S "add-member", addMemberEntry),
   (S "get-members", getMembersEntry),
   (S "set-group-photo", setGroupPhotoEntry),
   (S "leave-group", leaveGroupEntry),
   (S "get-chat-info", getChatInfoEntry)]

/-! ## The command operations over an abstract Telethon client

Every library call either returns a value or raises; raising is the
`Except.error` branch carrying the textual message of the exception. An
operation evaluates to the list of JSON documents it prints together with
the exception escaping it, if any (`none` when it returns normally). -/

/-- The kind of the entity behind a dialog (`isinstance(entity, (Chat,
    Channel))` distinguishes groups and channels from users). -/
inductive EntityKind where
  | user
  | chat
  | channel
deriving DecidableEq

/-- One dialog as enumerated by `client.iter_dialogs`. -/
structure Dialog where
  title : Option Str
  dialogId : Int
  kind : EntityKind
  unread : Int
deriving DecidableEq

/-- The `isinstance(entity, (Chat, Channel))` test. -/
def isGroupOrChannel (d : Dialog) : Bool :=
  match d.kind with
  | .user => false
  | .chat => true
  | .channel => true

/-- The `type` field emitted for a dialog. -/
def typeName (d : Dialog) : Str :=
  match d.kind with
  | .channel => S "channel"
  | _ => S "group"

/-- `dialog.title or ""`. -/
def titleOrEmpty (d : Dialog) : Str := d.title.getD []

/-- One entry of the `matches` list of cmd_lookup_group. -/
structure MatchEntry where
  title : Option Str
  chat_id : Int
  type : Str
deriving DecidableEq

/-- The match record appended for a dialog (lines 226-230). -/
def matchEntryOf (d : Dialog) : MatchEntry := ⟨d.title, d.dialogId, typeName d⟩

/-- The accumulation loop of cmd_lookup_group (lines 222-230): a dialog is
    appended when its entity is a Chat or Channel and the lowered query is
    contained in the lowered title (`or ""`). -/
def lookupLoop (nameLower : Str) : List Dialog → List MatchEntry → List MatchEntry
  | [], acc => acc
  | d :: rest, acc =>
    if isGroupOrChannel d && containsSub nameLower (plower (titleOrEmpty d)) then
      lookupLoop nameLower rest (acc ++ [matchEntryOf d])
    else lookupLoop nameLower rest acc

/-- The `matches` list computed by cmd_lookup_group for a query and the
    dialog sequence delivered by the client. -/
def lookupMatches (name : Str) (ds : List Dialog) : List MatchEntry :=
  lookupLoop (plower name) ds []

/-- JSON of an optional string (None prints as null). -/
def optStrJ : Option Str → J
  | some s => .jstr s
  | none => .jnull

/-- JSON of one match record. -/
def mJson (m : MatchEntry) : J :=
  .jobj [(S "title", optStrJ m.title), (S "chat_id", .jint m.chat_id),
         (S "type", .jstr m.type)]

/-- The document printed by cmd_lookup_group (line 232). -/
def cmd_lookup_group (name : Str) (ds : List Dialog) : J :=
  .jobj [(S "ok", .jbool true), (S "query", .jstr name),
         (S "matches", .jarr ((lookupMatches name ds).map mJson)),
         (S "count", .jint (lookupMatches name ds).length)]

/-- One entry of the `groups` list of cmd_list_groups (lines 200-205). -/
structure GroupEntry where
  title : Option Str
  chat_id : Int
  type : Str
  unread : Int
deriving DecidableEq

/-- The group record appended for a dialog. -/
def groupEntryOf (d : Dialog) : GroupEntry := ⟨d.title, d.dialogId, typeName d, d.unread⟩

/-- The accumulation loop of cmd_list_groups (lines 197-205). -/
def listLoop : List Dialog → List GroupEntry → List GroupEntry
  | [], acc => acc
  | d :: rest, acc =>
    if isGroupOrChannel d then listLoop rest (acc ++ [groupEntryOf d])
    else listLoop rest acc

/-- The `groups` list computed by cmd_list_groups from the dialog sequence
    delivered by the client (already truncated by the limit upstream). -/
def listGroups (ds : List Dialog) : List GroupEntry := listLoop ds []

/-- An entity returned by `client.get_entity`. -/
structure TEntity where
  eid : Int
deriving DecidableEq

/-- A chat of the CreateChatRequest result. -/
structure TChat where
  id : Int
deriving DecidableEq

/-- The result of `client(CreateChatRequest(...))`. -/
structure CreateChatResult where
  chats : List TChat
deriving DecidableEq

/-- The Telethon client as used by cmd_create_group. -/
structure CreateClient where
  start : Except Str Unit
  get_entity : Str → Except Str TEntity
  createChat : List TEntity → Str → Except Str CreateChatResult

/-- The tail of cmd_create_group after the users list is built (lines
    175-183): issue the CreateChatRequest, take `result.chats[0]`, print
    the success document whose chat_id is the negated chat id. -/
def createGroupRest (c : CreateClient) (title : Str) (bot_username : Option Str)
    (users : List TEntity) : List J × Option Str :=
  match c.createChat users title with
  | .error e => ([], some e)
  | .ok res =>
    match res.chats.head? with
    | none => ([], some (S "list index out of range"))
    | some chat =>
      ([.jobj [(S "ok", .jbool true), (S "title", .jstr title),
               (S "chat_id", .jint (-chat.id)),
               (S "members_added",
                .jarr (match bot_username with
                       | some b => [.jstr b]
                       | none => []))]], none)

/-- cmd_create_group (lines 157-185). The bot entity lookup sits in its own
    try/except: its failure prints an ok-false document and returns; every
    other raising call escapes the coroutine (the finally block only
    disconnects). -/
def cmd_create_group (c : CreateClient) (title : Str) (bot_username : Option Str) :
    List J × Option Str :=
  match c.start with
  | .error e => ([], some e)
  | .ok _ =>
    match bot_username with
    | some b =>
      match c.get_entity (lstripAt b) with
      | .error e =>
        ([.jobj [(S "ok", .jbool false),
                 (S "error",
                  .jstr (S "Could not find user @" ++ lstripAt b ++ S ": " ++ e))]], none)
      | .ok u => createGroupRest c title bot_username [u]
    | none => createGroupRest c title none []

/-- The Telethon client as used by cmd_send_message. -/
structure SendClient where
  start : Except Str Unit
  send_message : Int → Str → Except Str Int

/-- cmd_send_message (lines 237-250): `int(chat_id)`, then the send; the
    function body has no except handler, so a raising call escapes. -/
def cmd_send_message (c : SendClient) (chat_id text : Str) : List J × Option Str :=
  match c.start with
  | .error e => ([], some e)
  | .ok _ =>
    match pyIntOfStr chat_id with
    | none => ([], some (S "invalid literal for int with base 10: " ++ chat_id))
    | some n =>
      match c.send_message n text with
      | .error e => ([], some e)
      | .ok mid =>
        ([.jobj [(S "ok", .jbool true), (S "chat_id", .jint n),
                 (S "message_id", .jint mid)]], none)

/-- The entity returned by `client.get_entity` for a chat, as read by
    cmd_get_chat_info through getattr with a None fallback. -/
structure ChatEntity where
  title : Option Str
  username : Option Str
  participants_count : Option Int

/-- The Telethon client as used by cmd_get_chat_info. -/
structure InfoClient where
  start : Except Str Unit
  get_entity : Int → Except Str ChatEntity
  get_participants : ChatEntity → Except Str (List TEntity)

/-- JSON of an optional integer (None prints as null). -/
def optIntJ : Option Int → J
  | some n => .jint n
  | none => .jnull

/-- cmd_get_chat_info (lines 342-366). The participant count sits in its
    own try/except: when `client.get_participants` raises, the exception is
    swallowed and member_count falls back to the participants_count
    attribute of the entity (None when absent); the document is still
    emitted with ok true. Exceptions of the other calls escape. -/
def cmd_get_chat_info (c : InfoClient) (chat_id : Str) : List J × Option Str :=
  match c.start with
  | .error e => ([], some e)
  | .ok _ =>
    match pyIntOfStr chat_id with
    | none => ([], some (S "invalid literal for int with base 10: " ++ chat_id))
    | some n =>
      match c.get_entity n with
      | .error e => ([], some e)
      | .ok ent =>
        let memberCount : Option Int :=
          match c.get_participants ent with
          | .ok ps => some (ps.length : Int)
          | .error _ => ent.participants_count
        ([.jobj [(S "ok", .jbool true), (S "chat_id", .jint n),
                 (S "title", optStrJ ent.title), (S "username", optStrJ ent.username),
                 (S "member_count", optIntJ memberCount)]], none)

/-- A create-group client whose entity resolution raises with message e. -/
def entityFailClient (e : Str) : CreateClient :=
  ⟨.ok (), fun _ => .error e, fun _ _ => .error (S "not reached")⟩

/-- A create-group client whose CreateChatRequest succeeds and returns one
    chat with the given id. -/
def createOkClient (cid : Int) : CreateClient :=
  ⟨.ok (), fun _ => .error (S "not used"), fun _ _ => .ok ⟨[⟨cid⟩]⟩⟩

/-- A send-message client whose send raises with message e. -/
def sendFailClient (e : Str) : SendClient := ⟨.ok (), fun _ _ => .error e⟩

/-- A get-chat-info client that resolves the entity to ent and whose
    participant listing raises with message e. -/
def participantsFailClient (e : Str) (ent : ChatEntity) : InfoClient :=
  ⟨.ok (), fun _ => .ok ent, fun _ => .error e⟩

/-! ## The login rendezvous server (web_login.py)

The status flag is written by exactly one sequential unit, the background
authentication task (the HTTP handlers only read it), so the writes of one
run form a list of events. The mailbox file is a single optional value:
`none` when the file is absent, `some content` when it exists. -/

/-- The states of the shared status flag (line 79). -/
inductive LState where
  | waiting
  | success
  | error
deriving DecidableEq

/-- The shape of one run of the background task telegram_login (lines
    169-187): either some call before the success write raises (the except
    arm writes error), or the run reaches the success write and the final
    `client.disconnect()` returns, or that disconnect raises after the
    success write (the except arm then writes error). In each shape k
    counts the invocations of the code callback wait_for_code, each of
    which writes waiting (line 157). -/
inductive LoginRun where
  | failBeforeSuccess (k : Nat) (e : Str)
  | cleanSuccess (k : Nat)
  | disconnectFails (k : Nat) (e : Str)

/-- The status writes performed by telegram_login for one run shape. -/
def telegramLoginWrites : LoginRun → List LState
  | .failBeforeSuccess k _ => List.replicate k .waiting ++ [.error]
  | .cleanSuccess k => List.replicate k .waiting ++ [.success]
  | .disconnectFails k _ => List.replicate k .waiting ++ [.success, .error]

/-- All status writes of one run: the module-level initialisation to
    waiting (line 79) followed by the background-task writes. -/
def loginWriteTrace (run : LoginRun) : List LState :=
  LState.waiting :: telegramLoginWrites run

/-- The number of leading waiting writes of a run. -/
def initWaits : LoginRun → Nat
  | .failBeforeSuccess k _ => k + 1
  | .cleanSuccess k => k + 1
  | .disconnectFails k _ => k + 1

/-- The terminal writes of a run. -/
def terminalWrites : LoginRun → List LState
  | .failBeforeSuccess _ _ => [.error]
  | .cleanSuccess _ => [.success]
  | .disconnectFails _ _ => [.success, .error]

/-- The polling loop of wait_for_code (lines 159-166) over the mailbox
    state: at each poll, a present file with nonempty stripped content is
    deleted and its stripped content returned; a present file with empty
    stripped content is left in place; an absent file keeps the loop
    waiting. The fuel bounds the number of polls observed; `none` means the
    call is still blocked after that many polls. -/
def waitLoop : Nat → Option Str → Option (Str × Option Str)
  | 0, _ => none
  | n + 1, fs =>
    match fs with
    | some content =>
      if (pstrip content).isEmpty then waitLoop n (some content)
      else some (pstrip content, none)
    | none => waitLoop n none

/-- The pages a POST interaction can render. -/
inductive Page where
  | success
  | form
deriving DecidableEq

/-- The bounded poll of do_POST (lines 132-142): up to fuel polls; st i is
    the status observed at the i-th poll (each preceded by the sleep); on
    success the success page is rendered inside the loop, on error the loop
    breaks and the form page is rendered, on exhaustion the form page is
    rendered. -/
def pollFor (st : Nat → LState) : Nat → Nat → Page
  | _, 0 => .form
  | i, fuel + 1 =>
    match st i with
    | .success => .success
    | .error => .form
    | .waiting => pollFor st (i + 1) fuel

/-- do_POST (lines 122-148): the submitted code is stripped; when it is
    nonempty it is written to the mailbox file and the 30-poll wait renders
    one page; when it is empty the whole body is skipped and nothing is
    rendered and nothing is written. First component: the page rendered, if
    any; second component: the mailbox write, if any. -/
def do_POST (code : Str) (st : Nat → LState) : Option Page × Option Str :=
  if (pstrip code).isEmpty then (none, none)
  else (some (pollFor st 0 30), some (pstrip code))

/-- The all-waiting status history. -/
def constWaiting : Nat → LState := fun _ => .waiting

/-- The immediately successful status history. -/
def constSuccess : Nat → LState := fun _ => .success

/-! ## Theorems -/

/-- Lookup of a one-binding environment. -/
theorem elookup_single (k k2 v : Str) :
    elookup k [(k2, v)] = if k2 = k then some v else none := rfl

/-- Environment lookup distributes over append, left-biased. -/
theorem elookup_append (k : Str) (e1 e2 : Env) :
    elookup k (e1 ++ e2) = overlay (elookup k e1) (elookup k e2) := by
  induction e1 with
  | nil => simp [elookup, overlay]
  | cons kv t ih =>
    by_cases h : kv.1 = k
    · simp [elookup, h, overlay]
    · simp [elookup, h, ih]

/-- Overlay with a present left value. -/
theorem overlay_some (v : Str) (b : Option Str) : overlay (some v) b = some v := rfl

/-- Overlay with an absent left value. -/
theorem overlay_none (b : Option Str) : overlay none b = b := rfl

/-- Overlay with an absent right value. -/
theorem overlay_none_right (a : Option Str) : overlay a none = a := by
  cases a <;> rfl

/-- Unfolding equation of applyLine. -/
theorem applyLine_eq (env : Env) (raw : Str) :
    applyLine env raw =
      match splitFirst '=' (pstrip raw) with
      | none => env
      | some kv =>
        if pstartswith (S "#") (pstrip raw) then env
        else if (elookup (pstrip kv.1) env).isSome then env
        else env ++ [(pstrip kv.1, pstrip kv.2)] := rfl

/-- Unfolding equation of firstDef on a cons. -/
theorem firstDef_cons (k raw : Str) (rest : List Str) :
    firstDef k (raw :: rest) =
      match splitFirst '=' (pstrip raw) with
      | none => firstDef k rest
      | some kv =>
        if pstartswith (S "#") (pstrip raw) then firstDef k rest
        else if pstrip kv.1 = k then some (pstrip kv.2)
        else firstDef k rest := rfl

/-- Effect of one .env file on a lookup: the environment value if the key
    is present, otherwise the value of the first matching line. -/
theorem elookup_loadEnvFile (k : Str) (lines : List Str) :
    ∀ env, elookup k (loadEnvFile env lines) = overlay (elookup k env) (firstDef k lines) := by
  induction lines with
  | nil => intro env; exact (overlay_none_right _).symm
  | cons raw rest ih =>
    intro env
    rw [show loadEnvFile env (raw :: rest) = loadEnvFile (applyLine env raw) rest from rfl,
        ih, applyLine_eq, firstDef_cons]
    cases hsp : splitFirst '=' (pstrip raw) with
    | none => rfl
    | some kv =>
      by_cases hh : pstartswith (S "#") (pstrip raw) = true
      · simp only [hh, if_true]
      · by_cases hk : pstrip kv.1 = k
        · cases he : elookup k env with
          | some v =>
            have hex : (elookup (pstrip kv.1) env).isSome = true := by rw [hk, he]; rfl
            simp [hh, hex, he, overlay_some, hk]
          | none =>
            have hex : (elookup (pstrip kv.1) env).isSome = false := by rw [hk, he]; rfl
            simp [hh, hex, hk, he, elookup_append, elookup_single,
              overlay_none, overlay_some]
        · by_cases hex : (elookup (pstrip kv.1) env).isSome = true
          · simp [hh, hex, hk]
          · simp [hh, hex, hk, elookup_append, elookup_single, overlay_none_right]

/-- Claim C9: environment-file loading reads at most one key=value file,
    namely the first that exists among the session-directory file and the
    parent-directory file (first two conjuncts: the second candidate is
    ignored once the first exists); and within the processed file the
    lookup of any key yields the pre-existing environment value unchanged
    when the key was already present (never overwritten), and otherwise the
    value of the first matching line of the file (first matching line per
    key wins). -/
theorem load_env_spec :
    (∀ env f1 f2, load_env env (some f1) f2 = loadEnvFile env f1) ∧
    (∀ env f2, load_env env none (some f2) = loadEnvFile env f2) ∧
    (∀ env lines k, elookup k (loadEnvFile env lines) = overlay (elookup k env) (firstDef k lines)) :=
  ⟨fun _ _ _ => rfl, fun _ _ => rfl, fun env lines k => elookup_loadEnvFile k lines env⟩

/-- Claim C1 (evaluation at the failing input): invoking create-group with
    the two positional tokens "My Group" and "mybot" hands the operation
    bot_username = None, not "mybot": the flags dict is seeded with the
    defaults, and the final flag-override loop of `main` writes the default
    back over the positional assignment of every optional name, so the
    second positional documented as `create-group <title> [bot]` is
    silently dropped. -/
theorem route_create_group_positional_bot_dropped :
    route createGroupEntry [S "My Group", S "mybot"] =
      .invoke [(S "title", .vstr (S "My Group")), (S "bot_username", .vnone)] := rfl

/-- Claim C2 (counterexample): when the send call of cmd_send_message
    raises, the exception escapes the operation (second component not
    `none`) and no JSON document at all is printed (first component empty):
    the failure is neither caught nor reported as an ok-false object. -/
theorem send_message_exception_escapes :
    cmd_send_message (sendFailClient (S "network down")) (S "123") (S "hi") =
      ([], some (S "network down")) ∧
    (cmd_send_message (sendFailClient (S "network down")) (S "123") (S "hi")).2 ≠ none :=
  ⟨rfl, by decide⟩

/-- Claim C2 (amended): exception handling is per-step and heterogeneous,
    and only the bot entity lookup of cmd_create_group reports a failure as
    a single ok-false JSON document with the exception message while
    letting no exception escape (first conjunct); the participant count of
    cmd_get_chat_info also catches its exception but swallows it silently —
    the emitted document still has ok true, carries no ok-false object and
    no exception message, and member_count falls back to the entity
    attribute (second conjunct); an exception of any other library call,
    here the send call of cmd_send_message, escapes the operation uncaught
    with no JSON document printed (third conjunct). -/
theorem exception_handling_per_step :
    (∀ e b, cmd_create_group (entityFailClient e) (S "T") (some b) =
      ([.jobj [(S "ok", .jbool false),
               (S "error", .jstr (S "Could not find user @" ++ lstripAt b ++ S ": " ++ e))]],
       none)) ∧
    (∀ e ent, cmd_get_chat_info (participantsFailClient e ent) (S "123") =
      ([.jobj [(S "ok", .jbool true), (S "chat_id", .jint 123),
               (S "title", optStrJ ent.title), (S "username", optStrJ ent.username),
               (S "member_count", optIntJ ent.participants_count)]], none)) ∧
    (∀ e text, cmd_send_message (sendFailClient e) (S "123") text = ([], some e)) :=
  ⟨fun _ _ => rfl, fun _ _ => rfl, fun _ _ => rfl⟩

/-- Claim C6: writing a code with nonempty stripped content into the
    mailbox makes the very next poll of the waiting consumer return that
    stripped code and delete the file (the returned mailbox state is
    `none`); and from the deleted state the loop never returns, however
    many polls elapse, until a new write occurs — so no code is delivered
    twice. -/
theorem mailbox_rendezvous (c : Str) (n : Nat) (h : (pstrip c).isEmpty = false) :
    waitLoop (n + 1) (some c) = some (pstrip c, none) ∧
    (∀ m, waitLoop m none = none) := by
  refine ⟨by simp [waitLoop, h], ?_⟩
  intro m
  induction m with
  | zero => rfl
  | succ m ih => simpa [waitLoop] using ih

/-- Witness for the mailbox rendezvous at the code 12345. -/
theorem mailbox_rendezvous_witness :
    waitLoop 1 (some (S "12345")) = some (S "12345", none) ∧ waitLoop 3 none = none :=
  ⟨(mailbox_rendezvous (S "12345") 0 (by decide)).1,
   (mailbox_rendezvous (S "12345") 0 (by decide)).2 3⟩

/-- Claim C8 (counterexample): for the lookup-group command, whose single
    required argument is name, the invocation with the value --a=b passed
    through the flag form parses to name = "--a=b", while the bare
    invocation `lookup-group --a=b` parses the value as a flag token,
    leaves the positional list empty, and dispatch fails with the
    missing-arguments error — the two invocations do not produce identical
    parsed keyword arguments. -/
theorem flag_value_token_not_positional :
    route lookupGroupEntry [S "req1", S "--name=--a=b"] =
      .invoke [(S "name", .vstr (S "--a=b"))] ∧
    route lookupGroupEntry [S "--a=b"] = .errMissing [S "name"] (missingErrJson [S "name"]) ∧
    (route lookupGroupEntry [S "--a=b"]).isInvoke = false :=
  ⟨rfl, rfl, rfl⟩

/-- Claim C8 (amended): for the lookup-group command, whose single required
    argument is name, and every value x that is not itself parsed as a flag
    token (x does not both start with -- and contain =), the invocation
    with a positional placeholder and the flag `--name=x` and the
    invocation with the single positional x produce identical parsed
    keyword arguments, namely name = x — the flag overrides the positional
    placeholder. -/
theorem flag_override_matches_positional (x : Str)
    (hx : (pstartswith (S "--") x && containsSub (S "=") x) = false) :
    route lookupGroupEntry [S "req1", S "--name=" ++ x] = .invoke [(S "name", .vstr x)] ∧
    route lookupGroupEntry [x] = .invoke [(S "name", .vstr x)] := by
  refine ⟨rfl, ?_⟩
  have hp : parseLoop [x] [] lookupGroupEntry.defaults = ([x], []) := by
    simp [lookupGroupEntry, parseLoop, hx]
  simp only [route, hp]
  rfl

/-- Witness for the flag-override agreement at the value X. -/
theorem flag_override_matches_positional_witness :
    route lookupGroupEntry [S "req1", S "--name=" ++ S "X"] = .invoke [(S "name", .vstr (S "X"))] ∧
    route lookupGroupEntry [S "X"] = .invoke [(S "name", .vstr (S "X"))] :=
  flag_override_matches_positional (S "X") (by decide)

/-- Claim C3: for every command entry, whenever fewer positional tokens are
    supplied than the entry has required names, `main` prints a JSON object
    whose ok field is false and whose error field names exactly the
    unfilled required names (those after the positionally filled prefix, in
    declaration order) and exits; the operation coroutine is never invoked
    (the result is not an invoke, so no remote call happens). -/
theorem route_missing_required (entry : CmdEntry) (args : List Str)
    (h : (parseLoop args [] entry.defaults).1.length < entry.required.length) :
    route entry args =
      .errMissing (entry.required.drop (parseLoop args [] entry.defaults).1.length)
        (missingErrJson (entry.required.drop (parseLoop args [] entry.defaults).1.length)) ∧
    (route entry args).isInvoke = false ∧
    (missingErrJson (entry.required.drop (parseLoop args [] entry.defaults).1.length)).getField
        (S "ok") = some (.jbool false) ∧
    (missingErrJson (entry.required.drop (parseLoop args [] entry.defaults).1.length)).getField
        (S "error") =
      some (.jstr (S "Missing required arguments: " ++
        joinComma (entry.required.drop (parseLoop args [] entry.defaults).1.length))) := by
  have hr : route entry args =
      .errMissing (entry.required.drop (parseLoop args [] entry.defaults).1.length)
        (missingErrJson (entry.required.drop (parseLoop args [] entry.defaults).1.length)) := by
    simp only [route]
    rw [if_pos h]
  exact ⟨hr, by rw [hr]; rfl, rfl, rfl⟩

/-- Witness for the missing-arguments error: send-message with one
    positional token is missing exactly its second required name, text. -/
theorem route_missing_required_witness :
    route sendMessageEntry [S "123"] = .errMissing [S "text"] (missingErrJson [S "text"]) ∧
    (route sendMessageEntry [S "123"]).isInvoke = false :=
  ⟨(route_missing_required sendMessageEntry [S "123"] (by decide)).1,
   (route_missing_required sendMessageEntry [S "123"] (by decide)).2.1⟩

/-- The lookup loop in terms of filter and map. -/
theorem lookupLoop_eq (nl : Str) (ds : List Dialog) :
    ∀ acc, lookupLoop nl ds acc =
      acc ++ (ds.filter
        (fun d => isGroupOrChannel d && containsSub nl (plower (titleOrEmpty d)))).map
          matchEntryOf := by
  induction ds with
  | nil => intro acc; simp [lookupLoop]
  | cons d rest ih =>
    intro acc
    by_cases h : (isGroupOrChannel d && containsSub nl (plower (titleOrEmpty d))) = true
    · simp [lookupLoop, h, ih, List.filter_cons, List.append_assoc]
    · simp [lookupLoop, h, ih, List.filter_cons]

/-- Claim C4: the fuzzy lookup result is exactly the sublist of the dialog
    sequence consisting of the group/channel dialogs whose lowered title
    (empty for a missing title) contains the lowered query as a substring,
    each shaped into a match record — a filter of the source list, so the
    matches contain exactly the described dialogs and appear in the same
    relative order as in the source (not re-sorted). -/
theorem lookup_matches_filter (name : Str) (ds : List Dialog) :
    lookupMatches name ds =
      (ds.filter
        (fun d => isGroupOrChannel d && containsSub (plower name) (plower (titleOrEmpty d)))).map
          matchEntryOf := by
  simpa [lookupMatches] using lookupLoop_eq (plower name) ds []

/-- The list-groups loop in terms of filter and map. -/
theorem listLoop_eq (ds : List Dialog) :
    ∀ acc, listLoop ds acc = acc ++ (ds.filter isGroupOrChannel).map groupEntryOf := by
  induction ds with
  | nil => intro acc; simp [listLoop]
  | cons d rest ih =>
    intro acc
    by_cases h : isGroupOrChannel d = true
    · simp [listLoop, h, ih, List.filter_cons, List.append_assoc]
    · simp [listLoop, h, ih, List.filter_cons]

/-- Claim C10: a successful create-group emits chat_id equal to the
    negation of the id of the chat returned by the CreateChatRequest, while
    the entries of list-groups and the matches of lookup-group carry the
    dialog id unnegated. -/
theorem chat_id_sign_convention :
    (∀ cid title, (cmd_create_group (createOkClient cid) title none).1 =
      [.jobj [(S "ok", .jbool true), (S "title", .jstr title), (S "chat_id", .jint (-cid)),
              (S "members_added", .jarr [])]]) ∧
    (∀ ds, (listGroups ds).map (fun g => g.chat_id) =
      (ds.filter isGroupOrChannel).map (fun d => d.dialogId)) ∧
    (∀ name ds, (lookupMatches name ds).map (fun m => m.chat_id) =
      (ds.filter
        (fun d => isGroupOrChannel d && containsSub (plower name) (plower (titleOrEmpty d)))).map
          (fun d => d.dialogId)) := by
  refine ⟨fun cid title => rfl, fun ds => ?_, fun name ds => ?_⟩
  · rw [show listGroups ds = (ds.filter isGroupOrChannel).map groupEntryOf from by
      simpa [listGroups] using listLoop_eq ds []]
    simp only [List.map_map]
    rfl
  · rw [show lookupMatches name ds =
        (ds.filter
          (fun d => isGroupOrChannel d && containsSub (plower name) (plower (titleOrEmpty d)))).map
            matchEntryOf from by
      simpa [lookupMatches] using lookupLoop_eq (plower name) ds []]
    simp only [List.map_map]
    rfl

/-- Indexing a block of waiting writes followed by a tail. -/
theorem get_replicate_append (m : Nat) (tl : List LState) :
    ∀ i, (List.replicate m LState.waiting ++ tl).get? i =
      if i < m then some LState.waiting else tl.get? (i - m) := by
  induction m with
  | zero => intro i; simp
  | succ m ih =>
    intro i
    cases i with
    | zero => simp [List.replicate_succ]
    | succ i =>
      rw [List.replicate_succ, List.cons_append, List.get?_cons_succ, ih i]
      simp [Nat.succ_lt_succ_iff, Nat.succ_sub_succ]

/-- The write trace as a block of waiting writes and a terminal block. -/
theorem loginWriteTrace_shape (run : LoginRun) :
    loginWriteTrace run =
      List.replicate (initWaits run) LState.waiting ++ terminalWrites run := by
  cases run <;>
    simp [loginWriteTrace, telegramLoginWrites, initWaits, terminalWrites, List.replicate_succ]

/-- Length of the write trace. -/
theorem loginWriteTrace_length (run : LoginRun) :
    (loginWriteTrace run).length = initWaits run + (terminalWrites run).length := by
  rw [loginWriteTrace_shape]; simp

/-- Indexing the write trace. -/
theorem loginWriteTrace_get (run : LoginRun) (i : Nat) :
    (loginWriteTrace run).get? i =
      if i < initWaits run then some LState.waiting
      else (terminalWrites run).get? (i - initWaits run) := by
  rw [loginWriteTrace_shape]
  exact get_replicate_append (initWaits run) (terminalWrites run) i

/-- Claim C5 (counterexample): in the run where the disconnect call after a
    successful login raises, the status writes are waiting, waiting,
    success and then error — after success is set, a later step of the run
    writes the opposite terminal state. -/
theorem status_success_then_error_on_disconnect_failure :
    loginWriteTrace (LoginRun.disconnectFails 1 (S "connection reset")) =
      [LState.waiting, LState.waiting, LState.success, LState.error] ∧
    (loginWriteTrace (LoginRun.disconnectFails 1 (S "connection reset"))).get? 2 =
      some LState.success ∧
    (loginWriteTrace (LoginRun.disconnectFails 1 (S "connection reset"))).get? 3 =
      some LState.error :=
  ⟨rfl, rfl, rfl⟩

/-- Claim C5 (amended): in every single run, every status write that has a
    later write is a waiting write, except that a success write may be
    followed — exactly when the disconnect call after a successful login
    raises — by one final error write that ends the run; and an error write
    is always the last write of the run. In particular there is no
    transition back to waiting, error is terminal in all runs, and success
    is terminal except for the disconnect-failure run shape. -/
theorem status_flag_transitions (run : LoginRun) :
    (∀ i, i + 1 < (loginWriteTrace run).length →
      (loginWriteTrace run).get? i = some LState.waiting ∨
      ((loginWriteTrace run).get? i = some LState.success ∧
       (loginWriteTrace run).get? (i + 1) = some LState.error ∧
       i + 2 = (loginWriteTrace run).length)) ∧
    (∀ i, (loginWriteTrace run).get? i = some LState.error →
      i + 1 = (loginWriteTrace run).length) := by
  have hlen := loginWriteTrace_length run
  have hget := loginWriteTrace_get run
  cases run with
  | failBeforeSuccess k e =>
    simp only [initWaits, terminalWrites] at hlen hget
    have hL : (loginWriteTrace (LoginRun.failBeforeSuccess k e)).length = k + 2 := by
      rw [hlen]; simp
    refine ⟨fun i hi => ?_, fun i hi => ?_⟩
    · rw [hL] at hi
      exact Or.inl (by rw [hget, if_pos (by omega)])
    · rw [hget] at hi
      rw [hL]
      by_cases hik : i < k + 1
      · rw [if_pos hik] at hi
        exact absurd hi (by simp)
      · rw [if_neg hik] at hi
        cases hj : i - (k + 1) with
        | zero => omega
        | succ j => rw [hj] at hi; exact absurd hi (by simp)
  | cleanSuccess k =>
    simp only [initWaits, terminalWrites] at hlen hget
    have hL : (loginWriteTrace (LoginRun.cleanSuccess k)).length = k + 2 := by
      rw [hlen]; simp
    refine ⟨fun i hi => ?_, fun i hi => ?_⟩
    · rw [hL] at hi
      exact Or.inl (by rw [hget, if_pos (by omega)])
    · rw [hget] at hi
      by_cases hik : i < k + 1
      · rw [if_pos hik] at hi
        exact absurd hi (by simp)
      · rw [if_neg hik] at hi
        cases hj : i - (k + 1) with
        | zero => rw [hj] at hi; exact absurd hi (by simp)
        | succ j => rw [hj] at hi; exact absurd hi (by simp)
  | disconnectFails k e =>
    simp only [initWaits, terminalWrites] at hlen hget
    have hL : (loginWriteTrace (LoginRun.disconnectFails k e)).length = k + 3 := by
      rw [hlen]; simp
    refine ⟨fun i hi => ?_, fun i hi => ?_⟩
    · rw [hL] at hi
      by_cases hik : i < k + 1
      · exact Or.inl (by rw [hget, if_pos hik])
      · refine Or.inr ⟨?_, ?_, ?_⟩
        · rw [hget, if_neg hik]
          have h0 : i - (k + 1) = 0 := by omega
          rw [h0]; rfl
        · rw [hget, if_neg (by omega)]
          have h1 : i + 1 - (k + 1) = 1 := by omega
          rw [h1]; rfl
        · rw [hL]; omega
    · rw [hget] at hi
      rw [hL]
      by_cases hik : i < k + 1
      · rw [if_pos hik] at hi
        exact absurd hi (by simp)
      · rw [if_neg hik] at hi
        cases hj : i - (k + 1) with
        | zero => rw [hj] at hi; exact absurd hi (by simp)
        | succ j =>
          rw [hj] at hi
          cases j with
          | zero => omega
          | succ j2 => exact absurd hi (by simp)

/-- Witness for the status-transition structure: in the clean failure run
    with no callback invocation, the error write at position 1 is the last
    write of the run. -/
theorem status_flag_transitions_witness :
    1 + 1 = (loginWriteTrace (LoginRun.failBeforeSuccess 0 (S "boom"))).length :=
  (status_flag_transitions (LoginRun.failBeforeSuccess 0 (S "boom"))).2 1 (by decide)

/-- The bounded poll reaches the success page exactly when some poll within
    the window observes success and every earlier poll observes waiting. -/
theorem pollFor_success_iff (st : Nat → LState) :
    ∀ fuel start, pollFor st start fuel = Page.success ↔
      ∃ j, j < fuel ∧ st (start + j) = LState.success ∧
        ∀ i, i < j → st (start + i) = LState.waiting := by
  intro fuel
  induction fuel with
  | zero =>
    intro start
    constructor
    · intro hp; exact absurd hp (by simp [pollFor])
    · rintro ⟨j, hj, -, -⟩; omega
  | succ fuel ih =>
    intro start
    cases hst : st start with
    | success =>
      constructor
      · intro _
        exact ⟨0, Nat.succ_pos _, by simpa using hst, fun i hi => absurd hi (Nat.not_lt_zero i)⟩
      · intro _; simp [pollFor, hst]
    | error =>
      constructor
      · intro hp; rw [pollFor, hst] at hp; exact absurd hp (by simp)
      · rintro ⟨j, hj, hs, hw⟩
        cases j with
        | zero => rw [Nat.add_zero] at hs; rw [hst] at hs; exact absurd hs (by simp)
        | succ j2 =>
          have h0 := hw 0 (Nat.succ_pos _)
          rw [Nat.add_zero] at h0; rw [hst] at h0
          exact absurd h0 (by simp)
    | waiting =>
      have hstep : pollFor st start (fuel + 1) = pollFor st (start + 1) fuel := by
        rw [pollFor, hst]
      rw [hstep, ih (start + 1)]
      constructor
      · rintro ⟨j, hj, hs, hw⟩
        refine ⟨j + 1, by omega, ?_, ?_⟩
        · rw [show start + (j + 1) = start + 1 + j from by omega]; exact hs
        · intro i hi
          cases i with
          | zero => rw [Nat.add_zero]; exact hst
          | succ i2 =>
            rw [show start + (i2 + 1) = start + 1 + i2 from by omega]
            exact hw i2 (by omega)
      · rintro ⟨j, hj, hs, hw⟩
        cases j with
        | zero =>
          rw [Nat.add_zero] at hs; rw [hst] at hs
          exact absurd hs (by simp)
        | succ j2 =>
          refine ⟨j2, by omega, ?_, ?_⟩
          · rw [show start + 1 + j2 = start + (j2 + 1) from by omega]; exact hs
          · intro i hi
            rw [show start + 1 + i = start + (i + 1) from by omega]
            exact hw (i + 1) (by omega)

/-- Claim C7 (counterexample): a POST whose submitted code is empty renders
    no page at all — the whole handler body is inside the nonemptiness
    guard, so the interaction ends with zero pages (and no mailbox write),
    not with exactly one page. -/
theorem post_empty_code_renders_nothing :
    do_POST (S "") constWaiting = (none, none) := rfl

/-- Claim C7 (amended): for every POST whose submitted code is non-empty
    after stripping, exactly one HTML page is rendered: the success page
    exactly when some poll among the 30 of the bounded window observes the
    success state with every earlier poll still observing waiting (with the
    single-writer status flag this is: the flag reaches success within the
    window), and otherwise the status/form page; a POST with an empty code
    renders no page. -/
theorem post_renders_one_page (code : Str) (st : Nat → LState)
    (h : (pstrip code).isEmpty = false) :
    (∃ p, (do_POST code st).1 = some p) ∧
    ((do_POST code st).1 = some Page.success ↔
      ∃ j, j < 30 ∧ st j = LState.success ∧ ∀ i, i < j → st i = LState.waiting) := by
  have hdo : do_POST code st = (some (pollFor st 0 30), some (pstrip code)) := by
    simp [do_POST, h]
  rw [hdo]
  refine ⟨⟨pollFor st 0 30, rfl⟩, ?_⟩
  simp only [Option.some.injEq]
  constructor
  · intro hp
    obtain ⟨j, hj, hs, hw⟩ := (pollFor_success_iff st 30 0).mp hp
    exact ⟨j, hj, by simpa using hs, fun i hi => by simpa using hw i hi⟩
  · rintro ⟨j, hj, hs, hw⟩
    exact (pollFor_success_iff st 30 0).mpr
      ⟨j, hj, by simpa using hs, fun i hi => by simpa using hw i hi⟩

/-- Witness for the POST page rendering at code 12345 against an
    immediately successful status history. -/
theorem post_renders_one_page_witness :
    (∃ p, (do_POST (S "12345") constSuccess).1 = some p) ∧
    ((do_POST (S "12345") constSuccess).1 = some Page.success ↔
      ∃ j, j < 30 ∧ constSuccess j = LState.success ∧
        ∀ i, i < j → constSuccess i = LState.waiting) :=
  post_renders_one_page (S "12345") constSuccess (by decide)

end TG
